import Mathlib

/-!
Verification of the PID-Hunting repository (src/scanner.py and
src/OBD-terminal.py) against its natural-language specification.

The Python code is shallowly embedded: the serial transport is modelled as
an oracle mapping the history of written payloads to the bytes buffered at
the following read, and each send is recorded as an event carrying the
command, the exact payload written, and the wait duration applied before
the read.  Python string primitives (strip, upper, substring containment,
utf-8 decoding with replacement) are embedded explicitly.
-/

/-- Characters stripped by Python `str.strip()` (Unicode whitespace). -/
def isPySpace (c : Char) : Bool :=
  c == ' ' || c == '\t' || c == '\n' || c == '\x0b' || c == '\x0c' || c == '\r' ||
  c == '\x1c' || c == '\x1d' || c == '\x1e' || c == '\x1f' || c == '\x85' ||
  c == '\u00A0' || c == '\u1680' || (('\u2000' ≤ c) && (c ≤ '\u200A')) ||
  c == '\u2028' || c == '\u2029' || c == '\u202F' || c == '\u205F' || c == '\u3000'

/-- Python `str.strip()` on a list of characters. -/
def pyStripList (l : List Char) : List Char :=
  ((l.dropWhile isPySpace).reverse.dropWhile isPySpace).reverse

/-- Python `str.strip()`. -/
def pyStrip (s : String) : String :=
  ⟨pyStripList s.data⟩

/-- Python `str.upper()` (ASCII letters; the marker strings are ASCII). -/
def pyUpper (s : String) : String :=
  ⟨s.data.map Char.toUpper⟩

/-- needle is a prefix of hay. -/
def startsWithL : List Char → List Char → Bool
  | [], _ => true
  | _ :: _, [] => false
  | a :: as, b :: bs => a == b && startsWithL as bs

/-- needle occurs as a contiguous substring of hay (Python `needle in hay`). -/
def containsL (needle : List Char) : List Char → Bool
  | [] => needle.isEmpty
  | b :: bs => startsWithL needle (b :: bs) || containsL needle bs

/-- Python `needle in hay` on strings. -/
def pyContains (hay needle : String) : Bool :=
  containsL needle.data hay.data

/-- A utf-8 continuation byte (0x80..0xBF). -/
def contByte (b : Nat) : Bool :=
  0x80 ≤ b && b ≤ 0xBF

/-- The Unicode replacement character U+FFFD. -/
def replChar : Char := Char.ofNat 0xFFFD

/-- One pass of utf-8 decoding with the `replace` error handler, as Python
`bytes.decode("utf-8", errors="replace")` does: a malformed sequence has its
maximal valid subpart consumed and yields one replacement character.  The
fuel argument (an upper bound on the number of emitted characters, e.g. the
byte count) makes the recursion structural. -/
def decodeUtf8Go : Nat → List Nat → List Char
  | 0, _ => []
  | _, [] => []
  | fuel + 1, b :: rest =>
    if b < 0x80 then
      Char.ofNat b :: decodeUtf8Go fuel rest
    else if 0xC2 ≤ b && b ≤ 0xDF then
      match rest with
      | b1 :: rest1 =>
        if contByte b1 then
          Char.ofNat ((b - 0xC0) * 64 + (b1 - 0x80)) :: decodeUtf8Go fuel rest1
        else replChar :: decodeUtf8Go fuel rest
      | [] => [replChar]
    else if 0xE0 ≤ b && b ≤ 0xEF then
      match rest with
      | b1 :: rest1 =>
        let ok1 : Bool :=
          if b == 0xE0 then 0xA0 ≤ b1 && b1 ≤ 0xBF
          else if b == 0xED then 0x80 ≤ b1 && b1 ≤ 0x9F
          else contByte b1
        if ok1 then
          match rest1 with
          | b2 :: rest2 =>
            if contByte b2 then
              Char.ofNat ((b - 0xE0) * 4096 + (b1 - 0x80) * 64 + (b2 - 0x80)) ::
                decodeUtf8Go fuel rest2
            else replChar :: decodeUtf8Go fuel rest1
          | [] => [replChar]
        else replChar :: decodeUtf8Go fuel rest
      | [] => [replChar]
    else if 0xF0 ≤ b && b ≤ 0xF4 then
      match rest with
      | b1 :: rest1 =>
        let ok1 : Bool :=
          if b == 0xF0 then 0x90 ≤ b1 && b1 ≤ 0xBF
          else if b == 0xF4 then 0x80 ≤ b1 && b1 ≤ 0x8F
          else contByte b1
        if ok1 then
          match rest1 with
          | b2 :: rest2 =>
            if contByte b2 then
              match rest2 with
              | b3 :: rest3 =>
                if contByte b3 then
                  Char.ofNat ((b - 0xF0) * 262144 + (b1 - 0x80) * 4096 +
                      (b2 - 0x80) * 64 + (b3 - 0x80)) :: decodeUtf8Go fuel rest3
                else replChar :: decodeUtf8Go fuel rest2
              | [] => [replChar]
            else replChar :: decodeUtf8Go fuel rest1
          | [] => [replChar]
        else replChar :: decodeUtf8Go fuel rest
      | [] => [replChar]
    else
      replChar :: decodeUtf8Go fuel rest

/-- Python `bytes.decode("utf-8", errors="replace")`: total, never raises. -/
def decodeUtf8Replace (bs : List Nat) : List Char :=
  decodeUtf8Go bs.length bs

/-- The error-marker substrings of `is_valid_response` (src/scanner.py). -/
def invalid_responses : List String := ["?", "NO DATA", "UNABLE TO CONNECT"]

/-- src/scanner.py `is_valid_response`: False for the empty (falsy) string,
False when the uppercased response contains one of the markers, else True. -/
def is_valid_response (response : String) : Bool :=
  if response = "" then false
  else if invalid_responses.any (fun inv => pyContains (pyUpper response) inv) then false
  else true

example : is_valid_response "" = false := by decide
example : is_valid_response "no data" = false := by decide
example : is_valid_response "41 00 BE 1F A8 13" = true := by decide
example : pyStrip "  ab \r\n" = "ab" := by decide
example : decodeUtf8Replace [0x41, 0xC3, 0xA9, 0xFF] = ['A', 'é', replChar] := by decide

/-- One command transmission: the command as passed, the exact payload
written to the transport, and the wait applied between write and read. -/
structure SendEvent where
  cmd : String
  payload : String
  delay : ℚ
deriving DecidableEq

/-- The state of an open serial connection.  `oracle` models the device: it
maps the history of payloads written so far to the bytes found in the input
buffer at the following `read_all`.  `written` is that history; `events`
records every send for the theorems. -/
structure SerialState where
  oracle : List String → List Nat
  written : List String
  events : List SendEvent

/-- A freshly opened connection with a given device behaviour. -/
def mkSerial (o : List String → List Nat) : SerialState :=
  ⟨o, [], []⟩

/-- src/scanner.py `OBDScanner.read_response`: drain all buffered bytes,
decode utf-8 with replacement, strip whitespace. -/
def scanner_read_response (st : SerialState) : String :=
  pyStrip ⟨decodeUtf8Replace (st.oracle st.written)⟩

/-- src/scanner.py `OBDScanner.send_command(cmd, delay=0.2)`: strip the
command, append a single carriage return, write it, sleep `delay`
(every scanner call site leaves the default 0.2), then read the response. -/
def scanner_send_command (st : SerialState) (cmd : String) : String × SerialState :=
  let delay : ℚ := 0.2
  let command : String := pyStrip cmd ++ "\r"
  let st2 : SerialState :=
    ⟨st.oracle, st.written ++ [command], st.events ++ [⟨cmd, command, delay⟩]⟩
  (scanner_read_response st2, st2)

/-- src/OBD-terminal.py `send_command` delay choice when the caller passes
no delay: 0.7 for a command whose stripped form starts with "22", else 0.3. -/
def terminal_delay (cmd : String) : ℚ :=
  if startsWithL "22".data (pyStrip cmd).data then 0.7 else 0.3

/-- src/OBD-terminal.py `send_command(ser, cmd, delay=None)` with an open
connection: same write/sleep/read shape as the scanner, but the delay is
chosen per command by `terminal_delay`. -/
def terminal_send_command (st : SerialState) (cmd : String) : String × SerialState :=
  let delay : ℚ := terminal_delay cmd
  let command : String := pyStrip cmd ++ "\r"
  let st2 : SerialState :=
    ⟨st.oracle, st.written ++ [command], st.events ++ [⟨cmd, command, delay⟩]⟩
  (scanner_read_response st2, st2)

/-- src/OBD-terminal.py `init_commands` inside `initialize_obd`. -/
def init_commands : List String :=
  ["ATWS", "ATE0", "ATM0", "ATS0", "ATAT1", "ATH1", "ATSP6", "ATS0", "ATDPN"]

/-- src/OBD-terminal.py `initialize_obd`: on a successful open, send the
nine fixed initialization commands in order and return the connection; a
failed open is caught and yields None. -/
def initialize_obd (openResult : Option SerialState) : Option SerialState :=
  match openResult with
  | some ser => some (init_commands.foldl (fun s c => (terminal_send_command s c).2) ser)
  | none => none

/-- src/scanner.py `OBDScanner.__init__`: a successful open yields the
connection with no command sent; a failed open logs and re-raises. -/
def OBDScanner_init (openResult : Option SerialState) : Except String SerialState :=
  match openResult with
  | some ser => Except.ok ser
  | none => Except.error "SerialException"

/-- src/scanner.py: the fixed target address used by `scan_pid_for_ecu`. -/
def target_addr : String := "01"

/-- src/scanner.py `scan_pid_for_ecu`: ATST96, the header command (ATSH or
ATFCSH plus the ECU address), the four addressing commands, then the PID
query itself; returns the PID query response. -/
def scan_pid_for_ecu (st : SerialState) (ecu pid : String) (use_extended : Bool) :
    String × SerialState :=
  let st1 := (scanner_send_command st "ATST96").2
  let header_cmd := (if use_extended then "ATFCSH" else "ATSH") ++ ecu
  let st2 := (scanner_send_command st1 header_cmd).2
  let cmds := ["ATCEA" ++ target_addr, "ATCRA6" ++ target_addr,
               "ATFCSD0" ++ pid, "ATFCSM1"]
  let st3 := cmds.foldl (fun s c => (scanner_send_command s c).2) st2
  scanner_send_command st3 pid

/-- The seven commands one scan task passes to `send_command`, in order. -/
def task_cmds (ecu pid : String) (use_extended : Bool) : List String :=
  ["ATST96", (if use_extended then "ATFCSH" else "ATSH") ++ ecu,
   "ATCEA" ++ target_addr, "ATCRA6" ++ target_addr,
   "ATFCSD0" ++ pid, "ATFCSM1", pid]

/-- The payloads one scan task writes to the transport, in order. -/
def task_payloads (ecu pid : String) (use_extended : Bool) : List String :=
  (task_cmds ecu pid use_extended).map (fun c => pyStrip c ++ "\r")

/-- The send events one scan task records, in order. -/
def task_events (ecu pid : String) (use_extended : Bool) : List SendEvent :=
  (task_cmds ecu pid use_extended).map (fun c => ⟨c, pyStrip c ++ "\r", (0.2 : ℚ)⟩)

/-- The transport's reply to the final PID query of one scan task started
in state `st`: the bytes the oracle buffers after the seven task payloads,
decoded and stripped. -/
def taskReply (st : SerialState) (e p : String) (x : Bool) : String :=
  pyStrip ⟨decodeUtf8Replace (st.oracle (st.written ++ task_payloads e p x))⟩

/-- The ECU-major, PID-minor task order of the scan loop. -/
def tasksOf (ecus pids : List String) : List (String × String) :=
  ecus.flatMap (fun e => pids.map (fun p => (e, p)))

/-- The send events recorded by the terminal initialization sequence. -/
def init_events : List SendEvent :=
  init_commands.map (fun c => ⟨c, pyStrip c ++ "\r", terminal_delay c⟩)

/-- A device that keeps its buffer empty: every read finds no bytes. -/
def oracle_silent : List String → List Nat := fun _ => []

/-- A device that answers "?" (byte 63) to every command except the seventh
of a history, where its buffer is empty: it differs from `oracle_silent`
exactly on the six configuration reads of a first scan task. -/
def oracle_alt : List String → List Nat :=
  fun hist => if hist.length == 7 then [] else [63]

/-- One row of the scan output: src/scanner.py builds the debug-log line for
every task and appends the valid ones to `valid_results`. -/
structure ScanResult where
  ecu : String
  pid : String
  response : String
  isValid : Bool
deriving DecidableEq

/-- The orchestration state of src/scanner.py `main`: the connection, the
tasks executed so far, every result (the debug log), and `valid_results`. -/
structure RunState where
  st : SerialState
  tasks : List (String × String)
  results : List ScanResult
  valid_results : List ScanResult

/-- One iteration of the inner loop of `main`: scan, classify, record. -/
def run_one (rs : RunState) (use_extended : Bool) (ecu pid : String) : RunState :=
  let out := scan_pid_for_ecu rs.st ecu pid use_extended
  let r : ScanResult := ⟨ecu, pid, out.1, is_valid_response out.1⟩
  ⟨out.2, rs.tasks ++ [(ecu, pid)], rs.results ++ [r],
   rs.valid_results ++ (if is_valid_response out.1 then [r] else [])⟩

/-- The inner `for pid in args.pids` loop of `main`. -/
def run_pid_loop (use_extended : Bool) (ecu : String) :
    RunState → List String → RunState
  | rs, [] => rs
  | rs, pid :: rest => run_pid_loop use_extended ecu (run_one rs use_extended ecu pid) rest

/-- The outer `for ecu in args.ecus` loop of `main`. -/
def run_ecu_loop (use_extended : Bool) (pids : List String) :
    RunState → List String → RunState
  | rs, [] => rs
  | rs, ecu :: rest =>
      run_ecu_loop use_extended pids (run_pid_loop use_extended ecu rs pids) rest

/-- The scan loop of src/scanner.py `main` over an open connection. -/
def run_scan (st : SerialState) (ecus pids : List String) (use_extended : Bool) : RunState :=
  run_ecu_loop use_extended pids ⟨st, [], [], []⟩ ecus

/-- src/scanner.py `main` from the point of opening the port: a failed open
propagates out of `OBDScanner.__init__` (the constructor re-raises and sits
outside the try block), so no task runs; a successful open runs the scan. -/
def scanner_main (openResult : Option SerialState) (ecus pids : List String)
    (use_extended : Bool) : Except String RunState :=
  match OBDScanner_init openResult with
  | Except.error e => Except.error e
  | Except.ok st => Except.ok (run_scan st ecus pids use_extended)

theorem scan_pid_for_ecu_spec (st : SerialState) (e p : String) (x : Bool) :
    scan_pid_for_ecu st e p x =
      (pyStrip ⟨decodeUtf8Replace (st.oracle (st.written ++ task_payloads e p x))⟩,
       ⟨st.oracle, st.written ++ task_payloads e p x, st.events ++ task_events e p x⟩) := by
  simp [scan_pid_for_ecu, scanner_send_command, scanner_read_response,
        task_payloads, task_events, task_cmds, List.append_assoc]

theorem run_one_spec (rs : RunState) (x : Bool) (e p : String) :
    run_one rs x e p =
      ⟨⟨rs.st.oracle, rs.st.written ++ task_payloads e p x,
        rs.st.events ++ task_events e p x⟩,
       rs.tasks ++ [(e, p)],
       rs.results ++ [⟨e, p, taskReply rs.st e p x,
                       is_valid_response (taskReply rs.st e p x)⟩],
       rs.valid_results ++
         (if is_valid_response (taskReply rs.st e p x) then
            [⟨e, p, taskReply rs.st e p x, is_valid_response (taskReply rs.st e p x)⟩]
          else [])⟩ := by
  simp [run_one, scan_pid_for_ecu_spec, taskReply]

theorem run_pid_loop_tasks (x : Bool) (e : String) (pids : List String) (rs : RunState) :
    (run_pid_loop x e rs pids).tasks = rs.tasks ++ pids.map (fun p => (e, p)) := by
  induction pids generalizing rs with
  | nil => simp [run_pid_loop]
  | cons p rest ih => simp [run_pid_loop, ih, run_one, List.append_assoc]

theorem run_pid_loop_events (x : Bool) (e : String) (pids : List String) (rs : RunState) :
    (run_pid_loop x e rs pids).st.events =
      rs.st.events ++ pids.flatMap (fun p => task_events e p x) := by
  induction pids generalizing rs with
  | nil => simp [run_pid_loop]
  | cons p rest ih => simp [run_pid_loop, ih, run_one_spec, List.append_assoc]

theorem run_ecu_loop_tasks (x : Bool) (pids : List String) (ecus : List String)
    (rs : RunState) :
    (run_ecu_loop x pids rs ecus).tasks =
      rs.tasks ++ ecus.flatMap (fun e => pids.map (fun p => (e, p))) := by
  induction ecus generalizing rs with
  | nil => simp [run_ecu_loop]
  | cons e rest ih => simp [run_ecu_loop, ih, run_pid_loop_tasks, List.append_assoc]

theorem run_ecu_loop_events (x : Bool) (pids : List String) (ecus : List String)
    (rs : RunState) :
    (run_ecu_loop x pids rs ecus).st.events =
      rs.st.events ++ ecus.flatMap (fun e => pids.flatMap (fun p => task_events e p x)) := by
  induction ecus generalizing rs with
  | nil => simp [run_ecu_loop]
  | cons e rest ih => simp [run_ecu_loop, ih, run_pid_loop_events, List.append_assoc]

theorem run_scan_tasks (st : SerialState) (ecus pids : List String) (x : Bool) :
    (run_scan st ecus pids x).tasks = tasksOf ecus pids := by
  simp [run_scan, run_ecu_loop_tasks, tasksOf]

theorem run_scan_events (st : SerialState) (ecus pids : List String) (x : Bool) :
    (run_scan st ecus pids x).st.events =
      st.events ++ ecus.flatMap (fun e => pids.flatMap (fun p => task_events e p x)) := by
  simp [run_scan, run_ecu_loop_events]

theorem task_events_cmds (e p : String) (x : Bool) :
    (task_events e p x).map (fun ev => ev.cmd) = task_cmds e p x := by
  simp [task_events, task_cmds]

theorem tasksOf_length (ecus pids : List String) :
    (tasksOf ecus pids).length = ecus.length * pids.length := by
  induction ecus with
  | nil => simp [tasksOf]
  | cons e rest ih =>
      have h1 : tasksOf (e :: rest) pids = pids.map (fun p => (e, p)) ++ tasksOf rest pids := by
        simp [tasksOf]
      rw [h1, List.length_append, List.length_map, ih, List.length_cons, Nat.succ_mul]
      omega

theorem dropWhile_headD_not (p : Char → Bool) (l : List Char) (d : Char)
    (hd : p d = false) : p ((l.dropWhile p).headD d) = false := by
  induction l with
  | nil => simpa [List.dropWhile]
  | cons a as ih =>
      by_cases h : p a
      · simpa [List.dropWhile, h] using ih
      · simp [List.dropWhile, h]

theorem pyStrip_last_not_space (s : String) :
    isPySpace ((pyStrip s).data.reverse.headD 'A') = false := by
  show isPySpace ((pyStripList s.data).reverse.headD 'A') = false
  unfold pyStripList
  rw [List.reverse_reverse]
  exact dropWhile_headD_not isPySpace _ 'A' (by decide)

theorem pyStrip_all_space (s : String) (h : s.data.all isPySpace = true) :
    pyStrip s = "" := by
  have h1 : s.data.dropWhile isPySpace = [] := by
    rw [List.dropWhile_eq_nil_iff]
    intro x hx
    exact List.all_eq_true.mp h x hx
  show String.mk (pyStripList s.data) = ""
  unfold pyStripList
  rw [h1]
  rfl

theorem init_events_cmds : init_events.map (fun ev => ev.cmd) = init_commands := by
  simp [init_events, init_commands]

theorem task_events_all_delay (e p : String) (x : Bool) :
    (task_events e p x).all (fun ev => ev.delay == (0.2 : ℚ)) = true := by
  simp [task_events, task_cmds]

theorem row_events_all_delay (e : String) (pids : List String) (x : Bool) :
    (pids.flatMap (fun p => task_events e p x)).all
      (fun ev => ev.delay == (0.2 : ℚ)) = true := by
  induction pids with
  | nil => simp
  | cons p rest ih =>
      simp only [List.flatMap_cons, List.all_append, task_events_all_delay, ih]
      rfl

theorem scan_events_all_delay (ecus pids : List String) (x : Bool) :
    (ecus.flatMap (fun e => pids.flatMap (fun p => task_events e p x))).all
      (fun ev => ev.delay == (0.2 : ℚ)) = true := by
  induction ecus with
  | nil => simp
  | cons e rest ih =>
      simp only [List.flatMap_cons, List.all_append, row_events_all_delay, ih]
      rfl

theorem events_cmds_row (e : String) (pids : List String) (x : Bool) :
    (pids.flatMap (fun p => task_events e p x)).map (fun ev => ev.cmd) =
      (pids.map (fun p => (e, p))).flatMap (fun t => task_cmds t.1 t.2 x) := by
  induction pids with
  | nil => simp
  | cons p rest ih => simp [ih, task_events_cmds]

theorem events_cmds_product (ecus pids : List String) (x : Bool) :
    (ecus.flatMap (fun e => pids.flatMap (fun p => task_events e p x))).map
        (fun ev => ev.cmd) =
      (ecus.flatMap (fun e => pids.map (fun p => (e, p)))).flatMap
        (fun t => task_cmds t.1 t.2 x) := by
  induction ecus with
  | nil => simp
  | cons e rest ih => simp [ih, events_cmds_row]

theorem run_pid_loop_results_ok (x : Bool) (e : String) (pids : List String)
    (rs : RunState)
    (h : rs.results.all (fun res => res.isValid == is_valid_response res.response) = true) :
    (run_pid_loop x e rs pids).results.all
      (fun res => res.isValid == is_valid_response res.response) = true := by
  induction pids generalizing rs with
  | nil => simpa [run_pid_loop] using h
  | cons p rest ih =>
      apply ih
      rw [run_one_spec]
      simp [List.all_append, h]

theorem run_ecu_loop_results_ok (x : Bool) (pids ecus : List String) (rs : RunState)
    (h : rs.results.all (fun res => res.isValid == is_valid_response res.response) = true) :
    (run_ecu_loop x pids rs ecus).results.all
      (fun res => res.isValid == is_valid_response res.response) = true := by
  induction ecus generalizing rs with
  | nil => simpa [run_ecu_loop] using h
  | cons e rest ih =>
      apply ih
      exact run_pid_loop_results_ok x e pids rs h

theorem run_scan_results_ok (st : SerialState) (ecus pids : List String) (x : Bool) :
    (run_scan st ecus pids x).results.all
      (fun res => res.isValid == is_valid_response res.response) = true := by
  apply run_ecu_loop_results_ok
  rfl

/-- C4 counterexample: a response of a single space is non-empty, so
`is_valid_response` skips the falsy check, and no marker occurs in it, so
the function returns Valid — not Invalid as the claim states. -/
theorem C4_counterexample : is_valid_response " " = true := by decide

/-- C4 (amended): classify returns Invalid for the empty string; a
whitespace-only string reaches classify only after the channel strips it,
where it has become empty and classifies Invalid; applied directly to a
non-empty whitespace-only string, classify returns Valid. -/
theorem C4_whitespace_classification :
    is_valid_response "" = false ∧
    ∀ s : String, s.data.all isPySpace = true →
      is_valid_response (pyStrip s) = false := by
  refine ⟨by decide, ?_⟩
  intro s h
  rw [pyStrip_all_space s h]
  decide

/-- C4 witness: the amended statement applied at the one-space string. -/
theorem C4_witness :
    (" ".data.all isPySpace = true) ∧ is_valid_response (pyStrip " ") = false :=
  ⟨by decide, C4_whitespace_classification.2 " " (by decide)⟩

/-- C5: a non-empty response classifies Invalid exactly when its uppercased
form contains one of the three markers (case-insensitive containment),
and Valid otherwise — including garbled marker-free strings. -/
theorem C5_marker_classification (s : String) (h : s ≠ "") :
    is_valid_response s =
      !(invalid_responses.any (fun m => pyContains (pyUpper s) (pyUpper m))) := by
  have h1 : pyUpper "?" = "?" := by decide
  have h2 : pyUpper "NO DATA" = "NO DATA" := by decide
  have h3 : pyUpper "UNABLE TO CONNECT" = "UNABLE TO CONNECT" := by decide
  simp only [is_valid_response, invalid_responses, if_neg h, List.any_cons,
    List.any_nil, h1, h2, h3, Bool.or_false]
  by_cases hc : (pyContains (pyUpper s) "?" || pyContains (pyUpper s) "NO DATA" ||
      pyContains (pyUpper s) "UNABLE TO CONNECT")
  · simp [hc]
  · simp [hc]

/-- C5 witness: applied at the mixed-case marker "NO data" (Invalid) —
matching the spec scenario that any letter case of NO DATA is Invalid. -/
theorem C5_witness :
    ("NO data" ≠ "") ∧
    is_valid_response "NO data" =
      !(invalid_responses.any (fun m => pyContains (pyUpper "NO data") (pyUpper m))) :=
  ⟨by decide, C5_marker_classification "NO data" (by decide)⟩

/-- C7: one send performs exactly one write whose payload is the stripped
command followed by a single carriage return (the stripped command cannot
end in whitespace, so the terminator is never duplicated), then exactly one
read that drains the buffered bytes, decodes them totally with replacement,
and strips the decoded text. -/
theorem C7_send_exact (st : SerialState) (cmd : String) :
    (scanner_send_command st cmd).2.written = st.written ++ [pyStrip cmd ++ "\r"] ∧
    isPySpace ((pyStrip cmd).data.reverse.headD 'A') = false ∧
    (scanner_send_command st cmd).1 =
      pyStrip ⟨decodeUtf8Replace (st.oracle (st.written ++ [pyStrip cmd ++ "\r"]))⟩ ∧
    (scanner_send_command st cmd).2.events =
      st.events ++ [⟨cmd, pyStrip cmd ++ "\r", (0.2 : ℚ)⟩] :=
  ⟨rfl, pyStrip_last_not_space cmd, rfl, rfl⟩

/-- C8: a failed transport open propagates out of the session constructor
(`OBDScanner.__init__` re-raises outside the try block of `main`), so the
run yields an error, executes no scan task and produces no ScanResult. -/
theorem C8_open_failure (ecus pids : List String) (x : Bool) :
    scanner_main none ecus pids x = Except.error "SerialException" ∧
    (scanner_main none ecus pids x).toOption = none :=
  ⟨rfl, rfl⟩

/-- C9: classify is a pure function of the response string alone (the
embedding of `is_valid_response` takes nothing but the string, so two
applications agree), and every result recorded by the scan loop carries
exactly `is_valid_response` of its own response — no other state enters
the classification. -/
theorem C9_classify_pure (r : String) (o : List String → List Nat)
    (ecus pids : List String) (x : Bool) :
    is_valid_response r = is_valid_response r ∧
    ((run_scan (mkSerial o) ecus pids x).results.all
      (fun res => res.isValid == is_valid_response res.response)) = true :=
  ⟨rfl, run_scan_results_ok (mkSerial o) ecus pids x⟩

/-- C1: for ecuList=["6F1"], pidList=["224002"], extended=false the session
sends, in order, ATST96 then the claimed sequence ATSH6F1, ATCEA01,
ATCRA601, ATFCSD0224002, ATFCSM1, 224002; the single result carries the
transport's reply to the final PID query, classified by the marker rules. -/
theorem C1_single_task (o : List String → List Nat) :
    ((run_scan (mkSerial o) ["6F1"] ["224002"] false).st.events.map
        (fun ev => ev.cmd) =
      ["ATST96", "ATSH6F1", "ATCEA01", "ATCRA601", "ATFCSD0224002",
       "ATFCSM1", "224002"]) ∧
    (run_scan (mkSerial o) ["6F1"] ["224002"] false).results =
      [⟨"6F1", "224002",
        pyStrip ⟨decodeUtf8Replace (o ["ATST96\r", "ATSH6F1\r", "ATCEA01\r",
          "ATCRA601\r", "ATFCSD0224002\r", "ATFCSM1\r", "224002\r"])⟩,
        is_valid_response
          (pyStrip ⟨decodeUtf8Replace (o ["ATST96\r", "ATSH6F1\r", "ATCEA01\r",
            "ATCRA601\r", "ATFCSD0224002\r", "ATFCSM1\r", "224002\r"])⟩)⟩] := by
  have hc : task_cmds "6F1" "224002" false =
      ["ATST96", "ATSH6F1", "ATCEA01", "ATCRA601", "ATFCSD0224002",
       "ATFCSM1", "224002"] := by decide
  have hp : task_payloads "6F1" "224002" false =
      ["ATST96\r", "ATSH6F1\r", "ATCEA01\r", "ATCRA601\r", "ATFCSD0224002\r",
       "ATFCSM1\r", "224002\r"] := by decide
  constructor
  · show ((run_one ⟨mkSerial o, [], [], []⟩ false "6F1" "224002").st.events.map
        (fun ev => ev.cmd)) = _
    rw [run_one_spec]
    simp only [mkSerial, List.nil_append, task_events_cmds, hc]
  · show (run_one ⟨mkSerial o, [], [], []⟩ false "6F1" "224002").results = _
    rw [run_one_spec]
    simp only [mkSerial, taskReply, List.nil_append, hp]

/-- C2: the scan loop executes exactly |ecuList|·|pidList| tasks, in
ECU-major then PID-minor list order (duplicates re-scanned, nothing
de-duplicated), and the full seven-command addressing sequence is re-sent
for every single task. -/
theorem C2_task_order (o : List String → List Nat) (ecus pids : List String)
    (x : Bool) :
    (run_scan (mkSerial o) ecus pids x).tasks =
      ecus.flatMap (fun e => pids.map (fun p => (e, p))) ∧
    (run_scan (mkSerial o) ecus pids x).tasks.length =
      ecus.length * pids.length ∧
    (run_scan (mkSerial o) ecus pids x).st.events.map (fun ev => ev.cmd) =
      (run_scan (mkSerial o) ecus pids x).tasks.flatMap
        (fun t => task_cmds t.1 t.2 x) := by
  refine ⟨run_scan_tasks (mkSerial o) ecus pids x, ?_, ?_⟩
  · rw [run_scan_tasks]
    exact tasksOf_length ecus pids
  · rw [run_scan_tasks, run_scan_events]
    show (ecus.flatMap (fun e => pids.flatMap (fun p => task_events e p x))).map
        (fun ev => ev.cmd) = _
    rw [events_cmds_product]
    rfl

/-- C3 counterexample: in a scan, the final PID query "224002" has a trimmed
form starting with "22", yet the recorded wait is the scanner's fixed
default 0.2, not the long delay 0.7. -/
theorem C3_counterexample :
    (startsWithL "22".data (pyStrip "224002").data = true) ∧
    ((run_scan (mkSerial oracle_silent) ["6F1"] ["224002"] false).st.events.map
        (fun ev => (ev.cmd, ev.delay))).getLast? = some ("224002", (0.2 : ℚ)) ∧
    (0.2 : ℚ) ≠ (0.7 : ℚ) := by
  refine ⟨by decide, rfl, by norm_num⟩

/-- C3 (amended): the 22-prefix timing rule lives in the terminal program's
`send_command`, whose recorded wait is 0.7 for a command whose trimmed form
starts with "22" and 0.3 otherwise; the scanner's `send_command` applies
its fixed default wait 0.2 to every command of a scan, including each
task's final PID query. -/
theorem C3_delay_rule (st : SerialState) (cmd : String)
    (o : List String → List Nat) (ecus pids : List String) (x : Bool) :
    (terminal_send_command st cmd).2.events =
      st.events ++ [⟨cmd, pyStrip cmd ++ "\r",
        if startsWithL "22".data (pyStrip cmd).data then (0.7 : ℚ) else (0.3 : ℚ)⟩] ∧
    ((run_scan (mkSerial o) ecus pids x).st.events.all
      (fun ev => ev.delay == (0.2 : ℚ))) = true := by
  constructor
  · rfl
  · rw [run_scan_events]
    show ((ecus.flatMap (fun e => pids.flatMap (fun p => task_events e p x))).all
      (fun ev => ev.delay == (0.2 : ℚ))) = true
    exact scan_events_all_delay ecus pids x

/-- C6 counterexample: the scanner's session construction succeeds at a
transport open yet sends no command at all — an entire scan run never sends
ATWS — so the initialization sequence is not sent on every successful open. -/
theorem C6_counterexample :
    OBDScanner_init (some (mkSerial oracle_silent)) =
      Except.ok (mkSerial oracle_silent) ∧
    (mkSerial oracle_silent).events.map (fun ev => ev.cmd) = ([] : List String) ∧
    ([] : List String) ≠ init_commands ∧
    ((run_scan (mkSerial oracle_silent) ["6F1"] ["224002"] false).st.events.map
        (fun ev => ev.cmd)).contains "ATWS" = false := by
  refine ⟨rfl, rfl, by decide, by decide⟩

/-- C6 (amended): in the terminal program every successful open is followed
by the nine initialization commands ATWS, ATE0, ATM0, ATS0, ATAT1, ATH1,
ATSP6, ATS0, ATDPN, sent exactly once in that order whatever the device
replies (no command skipped); a failed open yields None; the scanner's
session opens the transport without sending any initialization command. -/
theorem C6_init_sequence (st : SerialState) :
    ((initialize_obd (some st)).map (fun s => s.events) =
      some (st.events ++ init_events)) ∧
    ((initialize_obd (some st)).map (fun s => s.events.map (fun ev => ev.cmd)) =
      some ((st.events.map (fun ev => ev.cmd)) ++ init_commands)) ∧
    initialize_obd none = none ∧
    (∀ st2 : SerialState, OBDScanner_init (some st2) = Except.ok st2) := by
  have h0 : (init_commands.foldl (fun s c => (terminal_send_command s c).2) st).events =
      st.events ++ init_events := by
    simp [init_commands, terminal_send_command, init_events, List.append_assoc]
  refine ⟨?_, ?_, rfl, fun st2 => rfl⟩
  · show some ((init_commands.foldl (fun s c => (terminal_send_command s c).2) st).events) =
      some (st.events ++ init_events)
    rw [h0]
  · show some ((init_commands.foldl (fun s c => (terminal_send_command s c).2) st).events.map
        (fun ev => ev.cmd)) =
      some ((st.events.map (fun ev => ev.cmd)) ++ init_commands)
    rw [h0, List.map_append, init_events_cmds]

/-- C10: the value a scan task returns is exactly the transport's reply to
the final PID query: two devices that agree on that one read — however they
answered the six configuration commands — give the same returned value and
the same Valid/Invalid classification. -/
theorem C10_final_reply_only (o1 o2 : List String → List Nat) (w : List String)
    (ev : List SendEvent) (e p : String) (x : Bool)
    (h : o1 (w ++ task_payloads e p x) = o2 (w ++ task_payloads e p x)) :
    (scan_pid_for_ecu ⟨o1, w, ev⟩ e p x).1 = taskReply ⟨o1, w, ev⟩ e p x ∧
    (scan_pid_for_ecu ⟨o1, w, ev⟩ e p x).1 =
      (scan_pid_for_ecu ⟨o2, w, ev⟩ e p x).1 ∧
    is_valid_response (scan_pid_for_ecu ⟨o1, w, ev⟩ e p x).1 =
      is_valid_response (scan_pid_for_ecu ⟨o2, w, ev⟩ e p x).1 := by
  have h2 : (scan_pid_for_ecu ⟨o1, w, ev⟩ e p x).1 =
      (scan_pid_for_ecu ⟨o2, w, ev⟩ e p x).1 := by
    rw [scan_pid_for_ecu_spec, scan_pid_for_ecu_spec]
    show pyStrip ⟨decodeUtf8Replace (o1 (w ++ task_payloads e p x))⟩ =
      pyStrip ⟨decodeUtf8Replace (o2 (w ++ task_payloads e p x))⟩
    rw [h]
  refine ⟨?_, h2, by rw [h2]⟩
  rw [scan_pid_for_ecu_spec]
  rfl

/-- C10 witness: the silent device and a device answering "?" to every
configuration command agree only on the final read of the first task; the
task's returned value is identical for both. -/
theorem C10_witness :
    (oracle_silent ([] ++ task_payloads "6F1" "224002" false) =
      oracle_alt ([] ++ task_payloads "6F1" "224002" false)) ∧
    (scan_pid_for_ecu ⟨oracle_silent, [], []⟩ "6F1" "224002" false).1 =
      (scan_pid_for_ecu ⟨oracle_alt, [], []⟩ "6F1" "224002" false).1 :=
  ⟨by decide,
   (C10_final_reply_only oracle_silent oracle_alt [] [] "6F1" "224002" false
     (by decide)).2.1⟩
